import Mathlib

/-!
Verification development for the OpenEXR disk-image resource
(src/vw/FileIO/DiskImageResourceOpenEXR.cc) and for the GeoReference
pixel/point transform declared in src/vw/Cartography/GeoReference.h.

The resource is embedded as an explicit state record (the m_* members of
DiskImageResourceOpenEXR) together with pure state-transition functions for
open, create, set_tiled_write, set_scanline_write, read and write.  The
OpenEXR backend library is modelled as data supplied to each operation: an
input file carries the header channel names, the tile geometry, an opaque
payload per channel name, and an optional failure diagnostic standing for an
Iex exception raised by the decoder; an output file carries an optional
failure diagnostic for the encoder.  Exceptions of the vw error taxonomy are
modelled by the VwError type returned in an Option next to the successor
state; backend-call counts record whether any backend decode or encode was
invoked, so that theorems can speak about operations performing no backend
I/O at all.
-/

/-- The vw error taxonomy (vw/Core/Exception.h) as used by this code:
IOErr, LogicErr, ArgumentErr and NoImplErr, each carrying a message. -/
inductive VwError where
  | ioErr (msg : String)
  | logicErr (msg : String)
  | argErr (msg : String)
  | noImplErr (msg : String)
  deriving DecidableEq, Repr

/-- True exactly on LogicErr. -/
def VwError.isLogicErr : VwError → Bool
  | .logicErr _ => true
  | _ => false

/-- True exactly on ArgumentErr. -/
def VwError.isArgErr : VwError → Bool
  | .argErr _ => true
  | _ => false

/-- True exactly on NoImplErr. -/
def VwError.isNoImplErr : VwError → Bool
  | .noImplErr _ => true
  | _ => false

/-- Whether an optional operation result is an ArgumentErr. -/
def errIsArg : Option VwError → Bool
  | some (.argErr _) => true
  | _ => false

/-- Whether an optional operation result is a NoImplErr. -/
def errIsNoImpl : Option VwError → Bool
  | some (.noImplErr _) => true
  | _ => false

/-- The pixel formats this code distinguishes: VW_PIXEL_SCALAR,
VW_PIXEL_RGB and VW_PIXEL_RGBA. -/
inductive PixelFormatEnum where
  | scalar
  | rgb
  | rgba
  deriving DecidableEq, Repr

/-- Channel (element) types; create always forces VW_CHANNEL_FLOAT32. -/
inductive ChannelTypeEnum where
  | float32
  | other
  deriving DecidableEq, Repr

/-- Modelled from the spec: the channel count implied by a pixel kind
(vw num_channels of vw/Image/PixelTypes.h, which is not under src):
scalar pixels have one channel, RGB pixels three, RGBA pixels four. -/
def num_channels : PixelFormatEnum → Nat
  | .scalar => 1
  | .rgb => 3
  | .rgba => 4

/-- The ImageFormat record (cols, rows, planes, pixel_format, channel_type). -/
structure ImageFormat where
  cols : Int
  rows : Int
  planes : Nat
  pixel_format : PixelFormatEnum
  channel_type : ChannelTypeEnum

/-- Model of an OpenEXR input file as seen through the backend: header data
window size, channel names in the order the store reports them, tiling
geometry, an opaque payload per channel name, and an optional diagnostic
standing for an Iex exception raised when the decoder is invoked. -/
structure ExrInputFile where
  cols : Int
  rows : Int
  header_names : List String
  tiled : Bool
  tile_xsize : Int
  tile_ysize : Int
  chanData : String → String
  readFail : Option String

/-- Model of an OpenEXR output file: an optional diagnostic standing for an
Iex exception raised when the encoder is invoked. -/
structure ExrOutputFile where
  writeFail : Option String

/-- The mutable members of DiskImageResourceOpenEXR. -/
structure EXRState where
  m_filename : String
  m_format : ImageFormat
  m_tiled : Bool
  m_block_size : Int × Int
  m_labels : List String
  m_input_file_ptr : Option ExrInputFile
  m_output_file_ptr : Option ExrOutputFile
  m_openexr_rows_per_block : Int

/-- A BBox2i window; only the corners are relevant to the embedded code. -/
structure BBox2i where
  minx : Int
  miny : Int
  maxx : Int
  maxy : Int

/-- The anonymous-namespace helper openexr_channel_string_of_pixel_type:
for RGB and RGBA pixel formats it names channels R, G, B (and A) and throws
ArgumentErr on any other channel index; otherwise it names the channel
Channel followed by the index. -/
def openexr_channel_string_of_pixel_type (pixel_format : PixelFormatEnum)
    (channel : Nat) : Except VwError String :=
  match pixel_format, channel with
  | .rgb, 0 => .ok "R"
  | .rgb, 1 => .ok "G"
  | .rgb, 2 => .ok "B"
  | .rgb, n =>
    .error (.argErr ("ChannelStringOfPixelType: Invalid channel number (" ++ toString n ++ ")"))
  | .rgba, 0 => .ok "R"
  | .rgba, 1 => .ok "G"
  | .rgba, 2 => .ok "B"
  | .rgba, 3 => .ok "A"
  | .rgba, n =>
    .error (.argErr ("ChannelStringOfPixelType: Invalid channel number (" ++ toString n ++ ")"))
  | .scalar, n => .ok ("Channel" ++ toString n)

/-- The label loop shared by set_tiled_write and set_scanline_write: for
nn in 0 .. planes-1 compute the channel string of plane nn.  Errors abort
the loop at the first failing index, as the C++ throw does. -/
def make_labels (pixel_format : PixelFormatEnum) : Nat → Except VwError (List String)
  | 0 => .ok []
  | n + 1 =>
    match make_labels pixel_format n with
    | .error e => .error e
    | .ok rest =>
      match openexr_channel_string_of_pixel_type pixel_format n with
      | .error e => .error e
      | .ok lbl => .ok (rest ++ [lbl])

/-- The channel_names vector of read: default-constructed with
m_format.planes entries, then filled positionally from the header iterator
(defined-behaviour reading of the C++ loop: positions beyond the header
list keep the default empty string). -/
def fill_names (planes : Nat) (header : List String) : List String :=
  header.take planes ++ List.replicate (planes - header.length) ""

/-- The channel-reordering step of read (lines 280-298 of the source): for
exactly 3 planes whose reported names include all of R, G and B the first
three entries are overwritten with R, G, B; for exactly 4 planes whose
names include all of R, G, B and A the four entries become R, G, B, A;
every other plane count keeps the reported order. -/
def canonical_channel_names (planes : Nat) (header : List String) : List String :=
  let names := fill_names planes header
  if planes = 3 then
    if "R" ∈ names ∧ "G" ∈ names ∧ "B" ∈ names then [ "R", "G", "B" ] else names
  else if planes = 4 then
    if "R" ∈ names ∧ "G" ∈ names ∧ "B" ∈ names ∧ "A" ∈ names then
      [ "R", "G", "B", "A" ]
    else names
  else names

/-- native_block_size returns m_block_size. -/
def native_block_size (s : EXRState) : Int × Int :=
  s.m_block_size

/-- DiskImageResourceOpenEXR::open.  The backend argument stands for the
attempt to open and parse the file: an Iex diagnostic on failure, the
parsed file on success.  m_filename is assigned before the reuse check, as
in the source; the reuse failure is the vw IOErr thrown at line 120, which
the surrounding Iex catch does not intercept. -/
def open_file (s : EXRState) (filename : String)
    (backend : Except String ExrInputFile) : Option VwError × EXRState :=
  let s1 := { s with m_filename := filename }
  if s.m_input_file_ptr.isSome then
    (some (.ioErr "Disk image resources do not yet support reuse."), s1)
  else
    match backend with
    | .error d =>
      (some (.ioErr ("DiskImageResourceOpenEXR: could not open " ++ filename ++ ":\n\t" ++ d)), s1)
    | .ok f =>
      let tiled := f.tiled || s.m_tiled
      (none,
        { s1 with
          m_input_file_ptr := some f
          m_tiled := tiled
          m_format :=
            { s1.m_format with
              cols := f.cols
              rows := f.rows
              planes := f.header_names.length
              pixel_format := PixelFormatEnum.scalar }
          m_block_size :=
            if tiled then (f.tile_xsize, f.tile_ysize)
            else (f.cols, s.m_openexr_rows_per_block) })

/-- DiskImageResourceOpenEXR::set_tiled_write.  The backend argument stands
for creating the tiled output file; label construction precedes it inside
the try block, and a label failure (a vw ArgumentErr) escapes the Iex
catch unchanged. -/
def set_tiled_write (s : EXRState) (tile_width tile_height : Int)
    (random_tile_order : Bool) (backend : Except String ExrOutputFile) :
    Option VwError × EXRState :=
  let s1 := { s with m_tiled := true, m_block_size := (tile_width, tile_height) }
  match make_labels s.m_format.pixel_format s.m_format.planes with
  | .error e => (some e, s1)
  | .ok labels =>
    let s2 := { s1 with m_labels := labels }
    match backend with
    | .error d =>
      (some (.ioErr ("DiskImageResourceOpenEXR: Failed to create " ++ s.m_filename ++ ".\n\t" ++ d)), s2)
    | .ok out => (none, { s2 with m_output_file_ptr := some out })

/-- DiskImageResourceOpenEXR::set_scanline_write.  The function stores
(m_format.cols, scanlines_per_block) into m_block_size at entry (line 199)
and then, inside the try block, overwrites m_block_size with
(m_format.cols, m_openexr_rows_per_block) (line 219) before creating the
scanline output file. -/
def set_scanline_write (s : EXRState) (scanlines_per_block : Int)
    (backend : Except String ExrOutputFile) : Option VwError × EXRState :=
  let s1 := { s with m_tiled := false
                     m_block_size := (s.m_format.cols, scanlines_per_block) }
  match make_labels s.m_format.pixel_format s.m_format.planes with
  | .error e => (some e, s1)
  | .ok labels =>
    let s2 := { s1 with m_labels := labels
                        m_block_size := (s.m_format.cols, s.m_openexr_rows_per_block) }
    match backend with
    | .error d =>
      (some (.ioErr ("DiskImageResourceOpenEXR: Failed to create " ++ s.m_filename ++ ".\n\t" ++ d)), s2)
    | .ok out => (none, { s2 with m_output_file_ptr := some out })

/-- DiskImageResourceOpenEXR::create.  The VW_ASSERT at line 231 rejects
formats that are simultaneously multi-plane and non-scalar before any
member is touched; otherwise the format is stored with channel type forced
to float32 and the plane count raised to the channel count implied by the
pixel format, the label vector is resized, and the resource defaults to a
2048 x 2048 tiled layout. -/
def create (s : EXRState) (filename : String) (format : ImageFormat)
    (backend : Except String ExrOutputFile) : Option VwError × EXRState :=
  if format.planes = 1 ∨ format.pixel_format = PixelFormatEnum.scalar then
    let planes := max format.planes (num_channels format.pixel_format)
    let s1 :=
      { s with
        m_filename := filename
        m_format := { format with channel_type := ChannelTypeEnum.float32, planes := planes }
        m_labels := List.replicate planes "" }
    set_tiled_write s1 2048 2048 false backend
  else
    (some (.noImplErr ("DiskImageResourceOpenEXR: Cannot create " ++ filename ++
      "\n\tThe image cannot have both multiple channels and multiple planes.\n")), s)

/-- DiskImageResourceOpenEXR::read.  Result: the raised error if any, the
destination buffer planes after the call (one opaque payload per plane),
and the number of backend decoder invocations.  An unbound resource fails
with LogicErr before anything else; on a tiled resource a window whose
corner is not an exact multiple of the block size fails with ArgumentErr
before the decoder is invoked (C++ % is Int.tmod); a decoder diagnostic is
re-signalled as IOErr and leaves the destination untouched; on success the
destination holds, for each plane, the payload of the channel selected by
canonical_channel_names. -/
def DiskImageResourceOpenEXR.read (s : EXRState) (dest : List String) (bbox : BBox2i) :
    Option VwError × List String × Nat :=
  match s.m_input_file_ptr with
  | none =>
    (some (.logicErr "DiskImageResourceOpenEXR: Could not read file. No file has been opened."), dest, 0)
  | some f =>
    let channel_names := canonical_channel_names s.m_format.planes f.header_names
    let src_image := channel_names.map f.chanData
    if s.m_tiled then
      if Int.tmod bbox.minx s.m_block_size.1 = 0 ∧ Int.tmod bbox.miny s.m_block_size.2 = 0 then
        match f.readFail with
        | some d =>
          (some (.ioErr ("Failed to open " ++ s.m_filename ++ " using the OpenEXR image reader.\n\t" ++ d)), dest, 1)
        | none => (none, src_image, 1)
      else
        (some (.argErr "DiskImageResourceOpenEXR: bbox corner must fall on tile boundary for read of tiled images."), dest, 0)
    else
      match f.readFail with
      | some d =>
        (some (.ioErr ("Failed to open " ++ s.m_filename ++ " using the OpenEXR image reader.\n\t" ++ d)), dest, 1)
      | none => (none, src_image, 1)

/-- DiskImageResourceOpenEXR::write.  Result: the raised error if any and
the number of backend encoder invocations.  An unbound resource fails with
LogicErr before the staging conversion; on a tiled resource a misaligned
window corner fails with ArgumentErr before the encoder is invoked; an
encoder diagnostic is re-signalled as IOErr. -/
def DiskImageResourceOpenEXR.write (s : EXRState) (bbox : BBox2i) : Option VwError × Nat :=
  match s.m_output_file_ptr with
  | none =>
    (some (.logicErr "DiskImageResourceOpenEXR: Could not write file. No file has been opened."), 0)
  | some f =>
    if s.m_tiled then
      if Int.tmod bbox.minx s.m_block_size.1 = 0 ∧ Int.tmod bbox.miny s.m_block_size.2 = 0 then
        match f.writeFail with
        | some d =>
          (some (.ioErr ("DiskImageResourceOpenEXR: Failed to write " ++ s.m_filename ++ ".\n\t" ++ d)), 1)
        | none => (none, 1)
      else
        (some (.argErr "DiskImageResourceOpenEXR: bbox corner must fall on tile boundary for writing of tiled images."), 0)
    else
      match f.writeFail with
      | some d =>
        (some (.ioErr ("DiskImageResourceOpenEXR: Failed to write " ++ s.m_filename ++ ".\n\t" ++ d)), 1)
      | none => (none, 1)

/-!
GeoReference pixel/point transforms.  Only the declarations live under
src (src/vw/Cartography/GeoReference.h); the implementation file is not
part of the sources, so the transform algebra is modelled from the spec.
Exact rational arithmetic stands in for double arithmetic, so equalities
hold exactly rather than within a floating-point tolerance.
-/

/-- Modelled from the spec: the pixel convention of GeoReferenceBase
(not under src); PixelAsArea makes pixel (0,0) the center of a unit cell
and induces a half-pixel shift, PixelAsPoint makes it a point sample. -/
inductive PixelInterpretation where
  | pixelAsArea
  | pixelAsPoint
  deriving DecidableEq, Repr

/-- Modelled from the spec: an affine 3 x 3 homogeneous transform whose
bottom row is (0, 0, 1), stored as the four linear entries and the
translation column; this is the invariant form the data model demands of
every GeoReference transform. -/
structure Matrix3x3 where
  a : ℚ
  b : ℚ
  c : ℚ
  d : ℚ
  tx : ℚ
  ty : ℚ
  deriving DecidableEq, Repr

/-- Determinant of the linear part (the determinant of the homogeneous
matrix, since the bottom row is (0, 0, 1)). -/
def Matrix3x3.det (T : Matrix3x3) : ℚ :=
  T.a * T.d - T.b * T.c

/-- Apply the transform to a homogeneous point (x, y, 1). -/
def Matrix3x3.apply (T : Matrix3x3) (p : ℚ × ℚ) : ℚ × ℚ :=
  (T.a * p.1 + T.b * p.2 + T.tx, T.c * p.1 + T.d * p.2 + T.ty)

/-- Apply the inverse transform, derived from the forward entries by the
adjugate formula; defined whenever the determinant is nonzero. -/
def Matrix3x3.applyInv (T : Matrix3x3) (q : ℚ × ℚ) : ℚ × ℚ :=
  ((T.d * (q.1 - T.tx) - T.b * (q.2 - T.ty)) / T.det,
   (T.a * (q.2 - T.ty) - T.c * (q.1 - T.tx)) / T.det)

/-- Modelled from the spec: the GeoReference state relevant to the
pixel/point conversions, a raw transform plus the pixel convention. -/
structure GeoReference where
  m_transform : Matrix3x3
  m_pixel_interpretation : PixelInterpretation

/-- Modelled from the spec: vw_native_transform adjusts the affine
transform by 0.5 pixels right and down when the pixel interpretation is
PixelAsArea, i.e. composes the raw transform with Shift(0.5, 0.5);
otherwise it is the raw transform. -/
def GeoReference.vw_native_transform (g : GeoReference) : Matrix3x3 :=
  match g.m_pixel_interpretation with
  | .pixelAsArea =>
    { g.m_transform with
      tx := g.m_transform.tx + g.m_transform.a / 2 + g.m_transform.b / 2
      ty := g.m_transform.ty + g.m_transform.c / 2 + g.m_transform.d / 2 }
  | .pixelAsPoint => g.m_transform

/-- Modelled from the spec: pixel_to_point applies the native transform. -/
def GeoReference.pixel_to_point (g : GeoReference) (pix : ℚ × ℚ) : ℚ × ℚ :=
  (GeoReference.vw_native_transform g).apply pix

/-- Modelled from the spec: point_to_pixel applies the inverse of the
native transform; the inverse is always derived from the native transform,
never computed independently. -/
def GeoReference.point_to_pixel (g : GeoReference) (loc : ℚ × ℚ) : ℚ × ℚ :=
  (GeoReference.vw_native_transform g).applyInv loc

/-!  Concrete sample data used by the witnesses and counterexamples. -/

/-- A freshly constructed, unbound resource; the default rows-per-block
constant lives in the resource header file, which is not under src, so an
arbitrary concrete value (10) is used where one is needed. -/
def exrFresh : EXRState :=
  { m_filename := ""
    m_format :=
      { cols := 0, rows := 0, planes := 0
        pixel_format := PixelFormatEnum.scalar
        channel_type := ChannelTypeEnum.float32 }
    m_tiled := false
    m_block_size := (0, 0)
    m_labels := []
    m_input_file_ptr := none
    m_output_file_ptr := none
    m_openexr_rows_per_block := 10 }

/-- A scalar single-plane 512 x 512 format. -/
def fmt512 : ImageFormat :=
  { cols := 512, rows := 512, planes := 1
    pixel_format := PixelFormatEnum.scalar
    channel_type := ChannelTypeEnum.float32 }

/-- A backend output file whose encoder succeeds. -/
def okOut : ExrOutputFile := { writeFail := none }

/-- A backend output file whose encoder raises the diagnostic. -/
def failOut : ExrOutputFile := { writeFail := some "disk full" }

/-- A tiled backend file with 256 x 256 tiles and one channel. -/
def tiledInput : ExrInputFile :=
  { cols := 512, rows := 512, header_names := [ "Channel0" ]
    tiled := true, tile_xsize := 256, tile_ysize := 256
    chanData := fun n => n ++ "-data", readFail := none }

/-- A scanline backend file reporting three channels lexically as B, G, R. -/
def bgrInput : ExrInputFile :=
  { cols := 512, rows := 512, header_names := [ "B", "G", "R" ]
    tiled := false, tile_xsize := 0, tile_ysize := 0
    chanData := fun n => n ++ "-data", readFail := none }

/-- A scanline backend file reporting four channels lexically as A, B, G, R. -/
def abgrInput : ExrInputFile :=
  { bgrInput with header_names := [ "A", "B", "G", "R" ] }

/-- A scanline backend file with two channels. -/
def twoInput : ExrInputFile :=
  { bgrInput with header_names := [ "Y", "X" ] }

/-- A three-channel scanline backend file missing the R channel. -/
def missInput : ExrInputFile :=
  { bgrInput with header_names := [ "B", "G", "X" ] }

/-- A four-channel scanline backend file missing the A channel. -/
def miss4Input : ExrInputFile :=
  { bgrInput with header_names := [ "B", "G", "R", "X" ] }

/-- A scanline backend file whose decoder raises a diagnostic. -/
def readFailInput : ExrInputFile :=
  { bgrInput with readFail := some "bad chunk" }

/-- A resource bound for reading by one successful open of a tiled file. -/
def exrBoundOnce : EXRState :=
  (open_file exrFresh "first.exr" (.ok tiledInput)).2

/-- A resource bound for reading a three-plane B, G, R scanline file. -/
def exrReadBGR : EXRState :=
  (open_file exrFresh "bgr.exr" (.ok bgrInput)).2

/-- A resource bound for reading a four-plane A, B, G, R scanline file. -/
def exrReadABGR : EXRState :=
  (open_file exrFresh "abgr.exr" (.ok abgrInput)).2

/-- A resource bound for reading a two-plane scanline file. -/
def exrReadTwo : EXRState :=
  (open_file exrFresh "two.exr" (.ok twoInput)).2

/-- A resource bound for reading a three-plane file missing channel R. -/
def exrReadMiss : EXRState :=
  (open_file exrFresh "miss.exr" (.ok missInput)).2

/-- A resource bound for reading a four-plane file missing channel A. -/
def exrReadMiss4 : EXRState :=
  (open_file exrFresh "miss4.exr" (.ok miss4Input)).2

/-- A resource bound for reading whose decoder fails. -/
def exrReadFailing : EXRState :=
  (open_file exrFresh "failing.exr" (.ok readFailInput)).2

/-- A resource bound for writing by create (default 2048 x 2048 tiles). -/
def exrWriteBound : EXRState :=
  (create exrFresh "out.exr" fmt512 (.ok okOut)).2

/-- A write-bound resource reconfigured to 256 x 256 tiles. -/
def exrWriteTiled256 : EXRState :=
  (set_tiled_write exrWriteBound 256 256 false (.ok okOut)).2

/-- A write-bound resource whose encoder fails. -/
def exrWriteFailing : EXRState :=
  (create exrFresh "o.exr" fmt512 (.ok failOut)).2

/-- A window whose corner (256, 0) lies on a 256 x 256 tile boundary. -/
def bboxAligned : BBox2i := { minx := 256, miny := 0, maxx := 512, maxy := 256 }

/-- A window whose corner (100, 0) misses every 256 x 256 tile boundary. -/
def bboxMis : BBox2i := { minx := 100, miny := 0, maxx := 356, maxy := 256 }

/-- A window anchored at the origin. -/
def bbox0 : BBox2i := { minx := 0, miny := 0, maxx := 256, maxy := 256 }

/-- The raw transform used by the GeoReference witness. -/
def sampleTransform : Matrix3x3 :=
  { a := 2, b := 0, c := 0, d := 1, tx := 3, ty := -4 }

/-- The GeoReference used by the witness: PixelAsArea convention. -/
def sampleGeoRef : GeoReference :=
  { m_transform := sampleTransform
    m_pixel_interpretation := PixelInterpretation.pixelAsArea }

/-- A format requesting one RGB plane. -/
def fmtRGB1 : ImageFormat :=
  { cols := 64, rows := 64, planes := 1
    pixel_format := PixelFormatEnum.rgb
    channel_type := ChannelTypeEnum.float32 }

/-- A format requesting three RGB planes (rejected by create). -/
def fmtRGB3 : ImageFormat :=
  { fmtRGB1 with planes := 3 }

/-! Helper lemmas. -/

/-- Filling a name vector of exactly the header length copies the header. -/
theorem fill_names_eq_self (header : List String) :
    fill_names header.length header = header := by
  simp [fill_names]

/-- Three planes with R, G and B all reported: canonical order R, G, B. -/
theorem canonical_names_rgb (header : List String) (hlen : header.length = 3)
    (hR : "R" ∈ header) (hG : "G" ∈ header) (hB : "B" ∈ header) :
    canonical_channel_names 3 header = [ "R", "G", "B" ] := by
  have hf : fill_names 3 header = header := by
    rw [← hlen]; exact fill_names_eq_self header
  simp [canonical_channel_names, hf, hR, hG, hB]

/-- Four planes with R, G, B and A all reported: canonical order R, G, B, A. -/
theorem canonical_names_rgba (header : List String) (hlen : header.length = 4)
    (hR : "R" ∈ header) (hG : "G" ∈ header) (hB : "B" ∈ header)
    (hA : "A" ∈ header) :
    canonical_channel_names 4 header = [ "R", "G", "B", "A" ] := by
  have hf : fill_names 4 header = header := by
    rw [← hlen]; exact fill_names_eq_self header
  simp [canonical_channel_names, hf, hR, hG, hB, hA]

/-- Three planes missing one of R, G, B: the reported order is kept. -/
theorem canonical_names_rgb_missing (header : List String)
    (hlen : header.length = 3)
    (hm : ¬( "R" ∈ header ∧ "G" ∈ header ∧ "B" ∈ header)) :
    canonical_channel_names 3 header = header := by
  have hf : fill_names 3 header = header := by
    rw [← hlen]; exact fill_names_eq_self header
  simp [canonical_channel_names, hf, hm]

/-- Four planes missing one of R, G, B, A: the reported order is kept. -/
theorem canonical_names_rgba_missing (header : List String)
    (hlen : header.length = 4)
    (hm : ¬( "R" ∈ header ∧ "G" ∈ header ∧ "B" ∈ header ∧ "A" ∈ header)) :
    canonical_channel_names 4 header = header := by
  have hf : fill_names 4 header = header := by
    rw [← hlen]; exact fill_names_eq_self header
  simp [canonical_channel_names, hf, hm]

/-- Any plane count other than 3 and 4 keeps the reported order. -/
theorem canonical_names_other (n : Nat) (header : List String)
    (hlen : header.length = n) (h3 : n ≠ 3) (h4 : n ≠ 4) :
    canonical_channel_names n header = header := by
  have hf : fill_names n header = header := by
    rw [← hlen]; exact fill_names_eq_self header
  simp [canonical_channel_names, hf, h3, h4]

/-- Whenever DiskImageResourceOpenEXR.read succeeds, the destination holds one payload per plane in
the order chosen by canonical_channel_names. -/
theorem read_ok_dest (s : EXRState) (f : ExrInputFile) (dest : List String)
    (bbox : BBox2i) (hf : s.m_input_file_ptr = some f)
    (hok : (DiskImageResourceOpenEXR.read s dest bbox).1 = none) :
    (DiskImageResourceOpenEXR.read s dest bbox).2.1 =
      (canonical_channel_names s.m_format.planes f.header_names).map f.chanData := by
  cases ht : s.m_tiled
  · cases hr : f.readFail
    · simp [DiskImageResourceOpenEXR.read, hf, ht, hr]
    · simp [DiskImageResourceOpenEXR.read, hf, ht, hr] at hok
  · by_cases ha : Int.tmod bbox.minx s.m_block_size.1 = 0 ∧
        Int.tmod bbox.miny s.m_block_size.2 = 0
    · cases hr : f.readFail
      · simp [DiskImageResourceOpenEXR.read, hf, ht, ha, hr]
      · simp [DiskImageResourceOpenEXR.read, hf, ht, ha, hr] at hok
    · simp [DiskImageResourceOpenEXR.read, hf, ht, ha] at hok

/-- set_tiled_write never touches m_format. -/
theorem set_tiled_write_m_format (s : EXRState) (tw th : Int) (r : Bool)
    (be : Except String ExrOutputFile) :
    ((set_tiled_write s tw th r be).2).m_format = s.m_format := by
  unfold set_tiled_write
  cases hml : make_labels s.m_format.pixel_format s.m_format.planes
  · rfl
  · cases be
    · rfl
    · rfl

/-- Channel-string failures are always ArgumentErr. -/
theorem channel_string_error_arg (pf : PixelFormatEnum) (n : Nat) (e : VwError)
    (h : openexr_channel_string_of_pixel_type pf n = .error e) :
    ∃ m, e = VwError.argErr m := by
  cases pf
  · simp [openexr_channel_string_of_pixel_type] at h
  · rcases n with _ | _ | _ | k
    · simp [openexr_channel_string_of_pixel_type] at h
    · simp [openexr_channel_string_of_pixel_type] at h
    · simp [openexr_channel_string_of_pixel_type] at h
    · injection h with h2
      exact ⟨_, h2.symm⟩
  · rcases n with _ | _ | _ | _ | k
    · simp [openexr_channel_string_of_pixel_type] at h
    · simp [openexr_channel_string_of_pixel_type] at h
    · simp [openexr_channel_string_of_pixel_type] at h
    · simp [openexr_channel_string_of_pixel_type] at h
    · injection h with h2
      exact ⟨_, h2.symm⟩

/-- Label-loop failures are always ArgumentErr. -/
theorem make_labels_error_arg (pf : PixelFormatEnum) :
    ∀ (n : Nat) (e : VwError), make_labels pf n = .error e →
      ∃ m, e = VwError.argErr m := by
  intro n
  induction n with
  | zero => intro e h; simp [make_labels] at h
  | succ k ih =>
    intro e h
    unfold make_labels at h
    cases hk : make_labels pf k with
    | error e2 =>
      rw [hk] at h
      injection h with h2
      obtain ⟨m, hm⟩ := ih e2 hk
      exact ⟨m, h2 ▸ hm⟩
    | ok rest =>
      rw [hk] at h
      cases hc : openexr_channel_string_of_pixel_type pf k with
      | error e3 =>
        rw [hc] at h
        injection h with h2
        obtain ⟨m, hm⟩ := channel_string_error_arg pf k e3 hc
        exact ⟨m, h2 ▸ hm⟩
      | ok lbl =>
        rw [hc] at h
        simp at h

/-- The label loop always succeeds for scalar pixels. -/
theorem make_labels_scalar_ok (n : Nat) :
    ∃ l, make_labels PixelFormatEnum.scalar n = .ok l := by
  induction n with
  | zero => exact ⟨[], rfl⟩
  | succ k ih =>
    obtain ⟨l, hl⟩ := ih
    refine ⟨l ++ [ "Channel" ++ toString k ], ?_⟩
    simp [make_labels, hl, openexr_channel_string_of_pixel_type]

/-- The label loop succeeds for every format create accepts, at the plane
count create computes. -/
theorem make_labels_create_ok (format : ImageFormat)
    (h : format.planes = 1 ∨ format.pixel_format = PixelFormatEnum.scalar) :
    ∃ l, make_labels format.pixel_format
      (max format.planes (num_channels format.pixel_format)) = .ok l := by
  cases hpf : format.pixel_format
  · exact make_labels_scalar_ok _
  · rcases h with h1 | h2
    · rw [h1]; exact ⟨[ "R", "G", "B" ], rfl⟩
    · rw [hpf] at h2; cases h2
  · rcases h with h1 | h2
    · rw [h1]; exact ⟨[ "R", "G", "B", "A" ], rfl⟩
    · rw [hpf] at h2; cases h2

/-- set_tiled_write never raises NoImplErr. -/
theorem set_tiled_write_not_noimpl (s : EXRState) (tw th : Int) (r : Bool)
    (be : Except String ExrOutputFile) :
    errIsNoImpl (set_tiled_write s tw th r be).1 = false := by
  unfold set_tiled_write
  cases hml : make_labels s.m_format.pixel_format s.m_format.planes
  · obtain ⟨m, hm⟩ := make_labels_error_arg _ _ _ hml
    subst hm
    rfl
  · cases be
    · rfl
    · rfl

/-! Claim theorems. -/

/-- C1 (amended): a second call to open on a resource already bound for
reading fails with IOError carrying the reuse message, not LogicError; the
input file handle stays bound to the original file and the only state
change is that the recorded filename is overwritten with the new
argument. -/
theorem C1_second_open_fails_ioerr (s : EXRState) (filename : String)
    (backend : Except String ExrInputFile)
    (h : s.m_input_file_ptr.isSome = true) :
    open_file s filename backend =
      (some (.ioErr "Disk image resources do not yet support reuse."),
        { s with m_filename := filename }) := by
  simp [open_file, h]

/-- Witness for C1: the amended theorem applied to a concrete resource
bound by one successful open. -/
theorem C1_witness :
    open_file exrBoundOnce "second.exr" (.error "") =
      (some (.ioErr "Disk image resources do not yet support reuse."),
        { exrBoundOnce with m_filename := "second.exr" }) :=
  C1_second_open_fails_ioerr exrBoundOnce "second.exr" (.error "") rfl

/-- Counterexample for C1 as stated: at a concrete already-bound resource
the second open raises an error, and that error is not a LogicError. -/
theorem C1_counterexample :
    (open_file exrBoundOnce "second.exr" (.error "")).1 =
      some (.ioErr "Disk image resources do not yet support reuse.") ∧
    ((open_file exrBoundOnce "second.exr" (.error "")).1.map VwError.isLogicErr) =
      some false :=
  ⟨rfl, rfl⟩

/-- C2 (code bug): on a concrete write-bound resource whose default
rows-per-block is 10, set_scanline_write 7 leaves the native block height
at the default 10 instead of the requested 7: the argument stored into
m_block_size at function entry is overwritten with the default before the
output file is created. -/
theorem C2_scanline_height_ignored :
    native_block_size (set_scanline_write exrWriteBound 7 (.ok okOut)).2 = (512, 10) ∧
    (10 : Int) ≠ 7 :=
  ⟨rfl, by decide⟩

/-- C3: for a tiled bound resource with positive block size, read and
write fail with ArgumentError exactly when the window corner is not an
exact multiple of the block size on both axes (the C++ % operator is
embedded as Int.tmod). -/
theorem C3_tile_alignment :
    (∀ (s : EXRState) (dest : List String) (bbox : BBox2i) (f : ExrInputFile),
      s.m_input_file_ptr = some f → s.m_tiled = true →
      0 < s.m_block_size.1 → 0 < s.m_block_size.2 →
      (errIsArg (DiskImageResourceOpenEXR.read s dest bbox).1 = true ↔
        ¬(Int.tmod bbox.minx s.m_block_size.1 = 0 ∧
          Int.tmod bbox.miny s.m_block_size.2 = 0))) ∧
    (∀ (s : EXRState) (bbox : BBox2i) (g : ExrOutputFile),
      s.m_output_file_ptr = some g → s.m_tiled = true →
      0 < s.m_block_size.1 → 0 < s.m_block_size.2 →
      (errIsArg (DiskImageResourceOpenEXR.write s bbox).1 = true ↔
        ¬(Int.tmod bbox.minx s.m_block_size.1 = 0 ∧
          Int.tmod bbox.miny s.m_block_size.2 = 0))) := by
  constructor
  · intro s dest bbox f hf ht _ _
    by_cases ha : Int.tmod bbox.minx s.m_block_size.1 = 0 ∧
        Int.tmod bbox.miny s.m_block_size.2 = 0
    · cases hr : f.readFail
      · simp [DiskImageResourceOpenEXR.read, hf, ht, ha, hr, errIsArg]
      · simp [DiskImageResourceOpenEXR.read, hf, ht, ha, hr, errIsArg]
    · simp [DiskImageResourceOpenEXR.read, hf, ht, ha, errIsArg]
  · intro s bbox g hg ht _ _
    by_cases ha : Int.tmod bbox.minx s.m_block_size.1 = 0 ∧
        Int.tmod bbox.miny s.m_block_size.2 = 0
    · cases hr : g.writeFail
      · simp [DiskImageResourceOpenEXR.write, hg, ht, ha, hr, errIsArg]
      · simp [DiskImageResourceOpenEXR.write, hg, ht, ha, hr, errIsArg]
    · simp [DiskImageResourceOpenEXR.write, hg, ht, ha, errIsArg]

/-- Witness for C3 at the spec example: 256 x 256 tiles; a window at
origin (256, 0) passes the alignment check for read and write while a
window at origin (100, 0) fails with ArgumentError. -/
theorem C3_witness :
    errIsArg (DiskImageResourceOpenEXR.read exrBoundOnce [] bboxAligned).1 = false ∧
    errIsArg (DiskImageResourceOpenEXR.read exrBoundOnce [] bboxMis).1 = true ∧
    errIsArg (DiskImageResourceOpenEXR.write exrWriteTiled256 bboxAligned).1 = false ∧
    errIsArg (DiskImageResourceOpenEXR.write exrWriteTiled256 bboxMis).1 = true := by
  refine ⟨?_, ?_, ?_, ?_⟩
  · cases hb : errIsArg (DiskImageResourceOpenEXR.read exrBoundOnce [] bboxAligned).1
    · rfl
    · exact absurd ((C3_tile_alignment.1 exrBoundOnce [] bboxAligned tiledInput rfl rfl
        (by decide) (by decide)).mp hb) (by decide)
  · exact (C3_tile_alignment.1 exrBoundOnce [] bboxMis tiledInput rfl rfl
      (by decide) (by decide)).mpr (by decide)
  · cases hb : errIsArg (DiskImageResourceOpenEXR.write exrWriteTiled256 bboxAligned).1
    · rfl
    · exact absurd ((C3_tile_alignment.2 exrWriteTiled256 bboxAligned okOut rfl rfl
        (by decide) (by decide)).mp hb) (by decide)
  · exact (C3_tile_alignment.2 exrWriteTiled256 bboxMis okOut rfl rfl
      (by decide) (by decide)).mpr (by decide)

/-- C4: whenever read succeeds on a 3-plane resource whose store reports
channel names including all of R, G and B (in any order, e.g. lexically
sorted), plane 0 receives the R payload, plane 1 the G payload and plane 2
the B payload; on a 4-plane resource reporting R, G, B and A the planes
receive R, G, B, A; for any other plane count the planes follow the order
the store reported. -/
theorem C4_canonical_channel_order :
    (∀ (s : EXRState) (dest : List String) (bbox : BBox2i) (f : ExrInputFile),
      s.m_input_file_ptr = some f → s.m_format.planes = 3 →
      f.header_names.length = 3 → "R" ∈ f.header_names → "G" ∈ f.header_names →
      "B" ∈ f.header_names →
      (DiskImageResourceOpenEXR.read s dest bbox).1 = none →
      (DiskImageResourceOpenEXR.read s dest bbox).2.1 =
        [f.chanData "R", f.chanData "G", f.chanData "B"]) ∧
    (∀ (s : EXRState) (dest : List String) (bbox : BBox2i) (f : ExrInputFile),
      s.m_input_file_ptr = some f → s.m_format.planes = 4 →
      f.header_names.length = 4 → "R" ∈ f.header_names → "G" ∈ f.header_names →
      "B" ∈ f.header_names → "A" ∈ f.header_names →
      (DiskImageResourceOpenEXR.read s dest bbox).1 = none →
      (DiskImageResourceOpenEXR.read s dest bbox).2.1 =
        [f.chanData "R", f.chanData "G", f.chanData "B", f.chanData "A"]) ∧
    (∀ (s : EXRState) (dest : List String) (bbox : BBox2i) (f : ExrInputFile) (n : Nat),
      s.m_input_file_ptr = some f → s.m_format.planes = n →
      f.header_names.length = n → n ≠ 3 → n ≠ 4 →
      (DiskImageResourceOpenEXR.read s dest bbox).1 = none →
      (DiskImageResourceOpenEXR.read s dest bbox).2.1 =
        f.header_names.map f.chanData) := by
  refine ⟨?_, ?_, ?_⟩
  · intro s dest bbox f hf hp hlen hR hG hB hok
    rw [read_ok_dest s f dest bbox hf hok, hp,
      canonical_names_rgb f.header_names hlen hR hG hB]
    rfl
  · intro s dest bbox f hf hp hlen hR hG hB hA hok
    rw [read_ok_dest s f dest bbox hf hok, hp,
      canonical_names_rgba f.header_names hlen hR hG hB hA]
    rfl
  · intro s dest bbox f n hf hp hlen h3 h4 hok
    rw [read_ok_dest s f dest bbox hf hok, hp,
      canonical_names_other n f.header_names hlen h3 h4]

/-- Witness for C4: a store reporting B, G, R lexically yields R, G, B
payloads; A, B, G, R yields R, G, B, A; a two-plane store keeps Y, X. -/
theorem C4_witness :
    (DiskImageResourceOpenEXR.read exrReadBGR [] bbox0).2.1 =
      [ "R-data", "G-data", "B-data" ] ∧
    (DiskImageResourceOpenEXR.read exrReadABGR [] bbox0).2.1 =
      [ "R-data", "G-data", "B-data", "A-data" ] ∧
    (DiskImageResourceOpenEXR.read exrReadTwo [] bbox0).2.1 =
      [ "Y-data", "X-data" ] := by
  refine ⟨?_, ?_, ?_⟩
  · rw [C4_canonical_channel_order.1 exrReadBGR [] bbox0 bgrInput rfl rfl rfl
      (by decide) (by decide) (by decide) rfl]
    rfl
  · rw [C4_canonical_channel_order.2.1 exrReadABGR [] bbox0 abgrInput rfl rfl rfl
      (by decide) (by decide) (by decide) (by decide) rfl]
    rfl
  · rw [C4_canonical_channel_order.2.2 exrReadTwo [] bbox0 twoInput 2 rfl rfl rfl
      (by decide) (by decide) rfl]
    rfl

/-- C5: for every format accepted by create, the plane count of the
created resource equals the maximum of the requested plane count and the
channel count implied by the pixel kind. -/
theorem C5_create_plane_count (s : EXRState) (filename : String)
    (format : ImageFormat) (backend : Except String ExrOutputFile)
    (h : format.planes = 1 ∨ format.pixel_format = PixelFormatEnum.scalar) :
    ((create s filename format backend).2).m_format.planes =
      max format.planes (num_channels format.pixel_format) := by
  simp only [create]
  rw [if_pos h]
  simp [set_tiled_write_m_format]

/-- Witness for C5: a single-plane RGB request produces three planes. -/
theorem C5_witness :
    ((create exrFresh "rgb.exr" fmtRGB1 (.ok okOut)).2).m_format.planes = 3 := by
  have h := C5_create_plane_count exrFresh "rgb.exr" fmtRGB1 (.ok okOut) (Or.inl rfl)
  simpa using h

/-- C6: create fails with NotImplementedError exactly when the requested
format has a multi-channel pixel kind together with more than one plane,
and in that case performs no state change at all. -/
theorem C6_create_noimpl (s : EXRState) (filename : String)
    (format : ImageFormat) (backend : Except String ExrOutputFile)
    (hp : 1 ≤ format.planes) :
    (errIsNoImpl (create s filename format backend).1 = true ↔
      (1 < num_channels format.pixel_format ∧ 1 < format.planes)) ∧
    ((1 < num_channels format.pixel_format ∧ 1 < format.planes) →
      (create s filename format backend).2 = s) := by
  by_cases hc : format.planes = 1 ∨ format.pixel_format = PixelFormatEnum.scalar
  · have hL : errIsNoImpl (create s filename format backend).1 = false := by
      simp only [create]
      rw [if_pos hc]
      exact set_tiled_write_not_noimpl _ _ _ _ _
    have hR : ¬(1 < num_channels format.pixel_format ∧ 1 < format.planes) := by
      rcases hc with h1 | h2
      · intro hx
        omega
      · intro hx
        rw [h2] at hx
        exact absurd hx.1 (by decide)
    constructor
    · rw [hL]
      simp [hR]
    · intro hx
      exact absurd hx hR
  · have hc2 := hc
    push_neg at hc2
    obtain ⟨hne1, hnes⟩ := hc2
    have hRt : 1 < num_channels format.pixel_format ∧ 1 < format.planes := by
      constructor
      · cases hpf : format.pixel_format
        · exact absurd hpf hnes
        · decide
        · decide
      · omega
    constructor
    · simp only [create]
      rw [if_neg hc]
      simp [errIsNoImpl, hRt]
    · intro _
      simp only [create]
      rw [if_neg hc]

/-- Witness for C6: requesting three RGB planes is rejected with
NotImplementedError and leaves the resource untouched. -/
theorem C6_witness :
    errIsNoImpl (create exrFresh "bad.exr" fmtRGB3 (.ok okOut)).1 = true ∧
    (create exrFresh "bad.exr" fmtRGB3 (.ok okOut)).2 = exrFresh := by
  have h := C6_create_noimpl exrFresh "bad.exr" fmtRGB3 (.ok okOut) (by decide)
  exact ⟨h.1.mpr (by decide), h.2 (by decide)⟩

/-- C7: read and write on an Unbound resource fail with LogicError, leave
the destination buffer exactly as it was and invoke no backend I/O at
all (backend-call count zero). -/
theorem C7_unbound_logicerr (s : EXRState) (dest : List String)
    (bb1 bb2 : BBox2i) (hin : s.m_input_file_ptr = none)
    (hout : s.m_output_file_ptr = none) :
    DiskImageResourceOpenEXR.read s dest bb1 =
      (some (.logicErr "DiskImageResourceOpenEXR: Could not read file. No file has been opened."),
        dest, 0) ∧
    DiskImageResourceOpenEXR.write s bb2 =
      (some (.logicErr "DiskImageResourceOpenEXR: Could not write file. No file has been opened."),
        0) := by
  constructor
  · simp [DiskImageResourceOpenEXR.read, hin]
  · simp [DiskImageResourceOpenEXR.write, hout]

/-- Witness for C7 at a freshly constructed resource. -/
theorem C7_witness :
    DiskImageResourceOpenEXR.read exrFresh [ "untouched" ] bbox0 =
      (some (.logicErr "DiskImageResourceOpenEXR: Could not read file. No file has been opened."),
        [ "untouched" ], 0) ∧
    DiskImageResourceOpenEXR.write exrFresh bbox0 =
      (some (.logicErr "DiskImageResourceOpenEXR: Could not write file. No file has been opened."),
        0) :=
  C7_unbound_logicerr exrFresh [ "untouched" ] bbox0 bbox0 rfl rfl

/-- C8: a diagnostic raised by the backend library during open, create
(through its default tiled layout), read or write is caught at that call
and re-signalled as an IOError whose message contains the original
diagnostic text as a suffix; no backend exception type crosses the
operation boundary. -/
theorem C8_backend_to_ioerr :
    (∀ (s : EXRState) (filename d : String), s.m_input_file_ptr = none →
      ∃ p, (open_file s filename (.error d)).1 = some (.ioErr (p ++ d))) ∧
    (∀ (s : EXRState) (filename d : String) (format : ImageFormat),
      format.planes = 1 ∨ format.pixel_format = PixelFormatEnum.scalar →
      ∃ p, (create s filename format (.error d)).1 = some (.ioErr (p ++ d))) ∧
    (∀ (s : EXRState) (dest : List String) (bbox : BBox2i) (f : ExrInputFile)
      (d : String), s.m_input_file_ptr = some f → f.readFail = some d →
      (s.m_tiled = true →
        Int.tmod bbox.minx s.m_block_size.1 = 0 ∧
        Int.tmod bbox.miny s.m_block_size.2 = 0) →
      ∃ p, (DiskImageResourceOpenEXR.read s dest bbox).1 = some (.ioErr (p ++ d))) ∧
    (∀ (s : EXRState) (bbox : BBox2i) (g : ExrOutputFile) (d : String),
      s.m_output_file_ptr = some g → g.writeFail = some d →
      (s.m_tiled = true →
        Int.tmod bbox.minx s.m_block_size.1 = 0 ∧
        Int.tmod bbox.miny s.m_block_size.2 = 0) →
      ∃ p, (DiskImageResourceOpenEXR.write s bbox).1 = some (.ioErr (p ++ d))) := by
  refine ⟨?_, ?_, ?_, ?_⟩
  · intro s filename d hin
    refine ⟨ "DiskImageResourceOpenEXR: could not open " ++ filename ++ ":\n\t", ?_⟩
    simp [open_file, hin, String.append_assoc]
  · intro s filename d format hfmt
    obtain ⟨l, hl⟩ := make_labels_create_ok format hfmt
    refine ⟨ "DiskImageResourceOpenEXR: Failed to create " ++ filename ++ ".\n\t", ?_⟩
    simp only [create]
    rw [if_pos hfmt]
    simp [set_tiled_write, hl, String.append_assoc]
  · intro s dest bbox f d hf hrf hal
    refine ⟨ "Failed to open " ++ s.m_filename ++ " using the OpenEXR image reader.\n\t", ?_⟩
    cases ht : s.m_tiled
    · simp [DiskImageResourceOpenEXR.read, hf, ht, hrf, String.append_assoc]
    · have ha := hal ht
      simp [DiskImageResourceOpenEXR.read, hf, ht, ha, hrf, String.append_assoc]
  · intro s bbox g d hg hwf hal
    refine ⟨ "DiskImageResourceOpenEXR: Failed to write " ++ s.m_filename ++ ".\n\t", ?_⟩
    cases ht : s.m_tiled
    · simp [DiskImageResourceOpenEXR.write, hg, ht, hwf, String.append_assoc]
    · have ha := hal ht
      simp [DiskImageResourceOpenEXR.write, hg, ht, ha, hwf, String.append_assoc]

/-- Witness for C8: concrete failing backends at all four operations. -/
theorem C8_witness :
    (∃ p, (open_file exrFresh "f.exr" (.error "disk error")).1 =
      some (.ioErr (p ++ "disk error"))) ∧
    (∃ p, (create exrFresh "g.exr" fmt512 (.error "boom")).1 =
      some (.ioErr (p ++ "boom"))) ∧
    (∃ p, (DiskImageResourceOpenEXR.read exrReadFailing [] bbox0).1 =
      some (.ioErr (p ++ "bad chunk"))) ∧
    (∃ p, (DiskImageResourceOpenEXR.write exrWriteFailing bbox0).1 =
      some (.ioErr (p ++ "disk full"))) := by
  refine ⟨C8_backend_to_ioerr.1 exrFresh "f.exr" "disk error" rfl,
    C8_backend_to_ioerr.2.1 exrFresh "g.exr" "boom" fmt512 (Or.inl rfl),
    C8_backend_to_ioerr.2.2.1 exrReadFailing [] bbox0 readFailInput "bad chunk" rfl rfl ?_,
    C8_backend_to_ioerr.2.2.2 exrWriteFailing bbox0 failOut "disk full" rfl rfl ?_⟩
  · intro h
    exact absurd h (by decide)
  · intro _
    exact ⟨by decide, by decide⟩

/-- C9 (spec-modelled): for every GeoReference whose transform is
non-singular and every pixel coordinate, point_to_pixel inverts
pixel_to_point exactly; pixel_to_point applies the convention-shifted
native transform and point_to_pixel applies the inverse derived from it.
Rational arithmetic stands in for doubles, so the round trip is exact. -/
theorem C9_pixel_point_roundtrip (g : GeoReference) (p : ℚ × ℚ)
    (h : g.m_transform.det ≠ 0) :
    GeoReference.point_to_pixel g (GeoReference.pixel_to_point g p) = p := by
  obtain ⟨x, y⟩ := p
  have hd : (GeoReference.vw_native_transform g).det = g.m_transform.det := by
    cases hi : g.m_pixel_interpretation <;>
      simp [GeoReference.vw_native_transform, hi, Matrix3x3.det]
  have hd2 : (GeoReference.vw_native_transform g).det ≠ 0 := by
    rw [hd]; exact h
  simp only [GeoReference.point_to_pixel, GeoReference.pixel_to_point,
    Matrix3x3.apply, Matrix3x3.applyInv, Prod.mk.injEq]
  simp only [Matrix3x3.det] at hd2 ⊢
  constructor
  · field_simp
    ring
  · field_simp
    ring

/-- Witness for C9 at a concrete non-singular transform with the
PixelAsArea convention and pixel (5, 7). -/
theorem C9_witness :
    sampleGeoRef.m_transform.det ≠ 0 ∧
    GeoReference.point_to_pixel sampleGeoRef
      (GeoReference.pixel_to_point sampleGeoRef (5, 7)) = (5, 7) :=
  ⟨by simp [sampleGeoRef, sampleTransform, Matrix3x3.det],
    C9_pixel_point_roundtrip sampleGeoRef (5, 7)
      (by simp [sampleGeoRef, sampleTransform, Matrix3x3.det])⟩

/-- C10: whenever read succeeds on a 3-plane resource whose reported
channel names do not include all of R, G and B, no reordering happens and
the planes follow the order the store reported; likewise for a 4-plane
resource whose names do not include all of R, G, B and A. -/
theorem C10_no_reorder_when_channels_missing :
    (∀ (s : EXRState) (dest : List String) (bbox : BBox2i) (f : ExrInputFile),
      s.m_input_file_ptr = some f → s.m_format.planes = 3 →
      f.header_names.length = 3 →
      ¬( "R" ∈ f.header_names ∧ "G" ∈ f.header_names ∧ "B" ∈ f.header_names) →
      (DiskImageResourceOpenEXR.read s dest bbox).1 = none →
      (DiskImageResourceOpenEXR.read s dest bbox).2.1 =
        f.header_names.map f.chanData) ∧
    (∀ (s : EXRState) (dest : List String) (bbox : BBox2i) (f : ExrInputFile),
      s.m_input_file_ptr = some f → s.m_format.planes = 4 →
      f.header_names.length = 4 →
      ¬( "R" ∈ f.header_names ∧ "G" ∈ f.header_names ∧ "B" ∈ f.header_names ∧
        "A" ∈ f.header_names) →
      (DiskImageResourceOpenEXR.read s dest bbox).1 = none →
      (DiskImageResourceOpenEXR.read s dest bbox).2.1 =
        f.header_names.map f.chanData) := by
  constructor
  · intro s dest bbox f hf hp hlen hm hok
    rw [read_ok_dest s f dest bbox hf hok, hp,
      canonical_names_rgb_missing f.header_names hlen hm]
  · intro s dest bbox f hf hp hlen hm hok
    rw [read_ok_dest s f dest bbox hf hok, hp,
      canonical_names_rgba_missing f.header_names hlen hm]

/-- Witness for C10: a 3-plane store reporting B, G, X and a 4-plane store
reporting B, G, R, X keep the reported order after read. -/
theorem C10_witness :
    (DiskImageResourceOpenEXR.read exrReadMiss [] bbox0).2.1 =
      [ "B-data", "G-data", "X-data" ] ∧
    (DiskImageResourceOpenEXR.read exrReadMiss4 [] bbox0).2.1 =
      [ "B-data", "G-data", "R-data", "X-data" ] := by
  constructor
  · rw [C10_no_reorder_when_channels_missing.1 exrReadMiss [] bbox0 missInput
      rfl rfl rfl (by decide) rfl]
    rfl
  · rw [C10_no_reorder_when_channels_missing.2 exrReadMiss4 [] bbox0 miss4Input
      rfl rfl rfl (by decide) rfl]
    rfl
